import Mathlib

/-
  Shallow embedding of `static/app.js` (QuantScreener frontend).

  Modelling conventions:
  * Parsed JSON values (the results of `resp.json()`) are `JSVal`; `undef`
    models the JavaScript value `undefined` (absent object fields).
  * JavaScript property access, `.toFixed`, `.forEach` and similar
    operations that can raise a `TypeError` return `Except Unit _`.
  * The DOM and the script globals are a record `AppState`; each script
    function becomes a state transformer.  A state transformer that can
    raise an uncaught exception returns `Except AppState AppState`, the
    `error` constructor carrying the state at the moment of the throw.
  * Network requests issued by `fetch` are appended to `AppState.requests`;
    `console.error` appends to `AppState.logs`.  A completed response is a
    `FetchOutcome` parameter (the browser event-loop delivers it later).
-/

namespace QS

/-- A JavaScript value as produced by `JSON.parse`, plus `undefined`. -/
inductive JSVal : Type
  | undef : JSVal
  | null : JSVal
  | bool : Bool → JSVal
  | num : ℚ → JSVal
  | str : String → JSVal
  | arr : List JSVal → JSVal
  | obj : List (String × JSVal) → JSVal

/-- First-match lookup of an object field; missing fields are `undefined`. -/
def lookupField : List (String × JSVal) → String → JSVal
  | [], _ => JSVal.undef
  | (k, v) :: rest, key => if k = key then v else lookupField rest key

/-- JavaScript property access `v[k]`: throws a TypeError on `null` or
`undefined`, yields `undefined` for missing fields and for primitives. -/
def getField : JSVal → String → Except Unit JSVal
  | JSVal.undef, _ => Except.error ()
  | JSVal.null, _ => Except.error ()
  | JSVal.obj fs, k => Except.ok (lookupField fs k)
  | JSVal.str s, k => Except.ok (if k = "length" then JSVal.num s.length else JSVal.undef)
  | JSVal.arr xs, k => Except.ok (if k = "length" then JSVal.num xs.length else JSVal.undef)
  | JSVal.num _, _ => Except.ok JSVal.undef
  | JSVal.bool _, _ => Except.ok JSVal.undef

/-- JavaScript indexed access `v[i]` for a natural-number index. -/
def getIndex : JSVal → Nat → Except Unit JSVal
  | JSVal.undef, _ => Except.error ()
  | JSVal.null, _ => Except.error ()
  | JSVal.arr xs, i => Except.ok (xs.getD i JSVal.undef)
  | JSVal.str s, i =>
      Except.ok (match s.data.get? i with
        | some c => JSVal.str (String.mk [c])
        | none => JSVal.undef)
  | JSVal.obj fs, i => Except.ok (lookupField fs (toString i))
  | JSVal.num _, _ => Except.ok JSVal.undef
  | JSVal.bool _, _ => Except.ok JSVal.undef

/-- JavaScript `v.length`: a TypeError on `null`/`undefined`, the element or
character count on arrays and strings, a field lookup on objects, and
`undefined` on the remaining primitives. -/
def getLength : JSVal → Except Unit JSVal
  | JSVal.undef => Except.error ()
  | JSVal.null => Except.error ()
  | JSVal.arr xs => Except.ok (JSVal.num xs.length)
  | JSVal.str s => Except.ok (JSVal.num s.length)
  | JSVal.obj fs => Except.ok (lookupField fs "length")
  | JSVal.num _ => Except.ok JSVal.undef
  | JSVal.bool _ => Except.ok JSVal.undef

/-- JavaScript truthiness. -/
def truthy : JSVal → Bool
  | JSVal.undef => false
  | JSVal.null => false
  | JSVal.bool b => b
  | JSVal.num q => !(decide (q = 0))
  | JSVal.str s => !(decide (s = ""))
  | JSVal.arr _ => true
  | JSVal.obj _ => true

/-- The loose comparison `v != null` (false exactly on `null`/`undefined`). -/
def jsNotNull : JSVal → Bool
  | JSVal.null => false
  | JSVal.undef => false
  | _ => true

/-- Strict equality `v === lit` against a string literal. -/
def jsStrEq (v : JSVal) (t : String) : Bool :=
  match v with
  | JSVal.str u => decide (u = t)
  | _ => false

/-- Strict equality `v === 0`. -/
def jsEqZero (v : JSVal) : Bool :=
  match v with
  | JSVal.num q => decide (q = 0)
  | _ => false

def padZeros (s : String) (n : Nat) : String :=
  String.mk (List.replicate (n - s.length) '0') ++ s

/-- `Number.prototype.toFixed` on an exact rational: round to the nearest
multiple of `10 ^ (-n)`, ties toward positive infinity in the scaled value
(matching the ECMAScript "pick the larger n" rule). -/
def toFixedQ (q : ℚ) (n : Nat) : String :=
  let N : ℤ := q.num * (10 : ℤ) ^ n
  let D : ℤ := (q.den : ℤ)
  let scaled : ℤ := Int.fdiv (2 * N + D) (2 * D)
  let sign : String := if scaled < 0 then "-" else ""
  let a : Nat := scaled.natAbs
  if n = 0 then sign ++ toString a
  else sign ++ toString (a / 10 ^ n) ++ "." ++ padZeros (toString (a % 10 ^ n)) n

/-- Method call `v.toFixed(n)`: a TypeError unless `v` is a number. -/
def callToFixed : JSVal → Nat → Except Unit String
  | JSVal.num q, n => Except.ok (toFixedQ q n)
  | _, _ => Except.error ()

def dropTrailingZeros (s : String) : String :=
  String.mk ((s.data.reverse.dropWhile (fun c => c = '0')).reverse)

/-- Smallest exponent `k` with `d ∣ 10 ^ k`, when one exists below 40. -/
def decExp (d : Nat) : Option Nat :=
  (List.range 40).find? (fun k => 10 ^ k % d = 0)

/-- JavaScript number-to-string for the rationals reachable from JSON
decimals.  Denominators that divide no power of ten cannot arise from
`JSON.parse`; for them a plain fraction fallback is used (no modelled
behaviour depends on it). -/
def jsNumToString (q : ℚ) : String :=
  if q.den = 1 then toString q.num
  else
    match decExp q.den with
    | some k =>
        let a := q.num.natAbs * (10 ^ k / q.den)
        let sign := if q.num < 0 then "-" else ""
        sign ++ toString (a / 10 ^ k) ++ "." ++
          dropTrailingZeros (padZeros (toString (a % 10 ^ k)) k)
    | none => toString q.num ++ "/" ++ toString q.den

/-- JavaScript string conversion (template-literal interpolation), with a
structural depth fuel; 64 levels cover every value the model constructs. -/
def jsToStringFuel : Nat → JSVal → String
  | _, JSVal.undef => "undefined"
  | _, JSVal.null => "null"
  | _, JSVal.bool true => "true"
  | _, JSVal.bool false => "false"
  | _, JSVal.num q => jsNumToString q
  | _, JSVal.str s => s
  | 0, JSVal.arr _ => ""
  | Nat.succ n, JSVal.arr xs => String.intercalate "," (xs.map (jsToStringFuel n))
  | _, JSVal.obj _ => "[object Object]"

def jsToString (v : JSVal) : String := jsToStringFuel 64 v

/-- The relational comparison `v >= 0`.  In the modelled program this is
only reached after `v.toFixed` succeeded (so `v` is a number) or, in
`renderPerfMetrics`/`renderTradeLog`, on data-model-conforming values;
string-to-number coercion is therefore not modelled. -/
def jsGE0 : JSVal → Bool
  | JSVal.num q => decide (0 ≤ q)
  | JSVal.null => true
  | JSVal.bool _ => true
  | _ => false

/-- The comparison `v > 0` (same reachability remark as `jsGE0`). -/
def jsGT0 : JSVal → Bool
  | JSVal.num q => decide (0 < q)
  | JSVal.bool b => b
  | _ => false

/-- The comparison `v < 0` (same reachability remark as `jsGE0`). -/
def jsLT0 : JSVal → Bool
  | JSVal.num q => decide (q < 0)
  | _ => false

def neutralSpan (label : String) : String :=
  "<span class=\"flow-neutral\">" ++ label ++ "</span>"

def bullishSpan (label : String) : String :=
  "<span class=\"flow-bullish\" title=\"P/C: " ++ label ++ "\">🐂 " ++ label ++ "</span>"

def bearishSpan (label : String) : String :=
  "<span class=\"flow-bearish\" title=\"P/C: " ++ label ++ "\">🐻 " ++ label ++ "</span>"

/-- `formatFlow(stock)` from `static/app.js` lines 120-135. -/
def formatFlow (stock : JSVal) : Except Unit String :=
  match getField stock "options_sentiment" with
  | Except.error e => Except.error e
  | Except.ok s =>
    match getField stock "put_call_ratio" with
    | Except.error e => Except.error e
    | Except.ok pcr =>
      if (!truthy s || jsStrEq s "Neutral") = true then
        if jsNotNull pcr then
          match callToFixed pcr 2 with
          | Except.error e => Except.error e
          | Except.ok d => Except.ok (neutralSpan d)
        else Except.ok "--"
      else if jsStrEq s "Bullish" then
        if jsNotNull pcr then
          match callToFixed pcr 2 with
          | Except.error e => Except.error e
          | Except.ok label => Except.ok (bullishSpan label)
        else Except.ok (bullishSpan "")
      else if jsStrEq s "Bearish" then
        if jsNotNull pcr then
          match callToFixed pcr 2 with
          | Except.error e => Except.error e
          | Except.ok label => Except.ok (bearishSpan label)
        else Except.ok (bearishSpan "")
      else Except.ok "--"

/-- A `<tr>` of a signals table: its `data-idx` attribute, its five `<td>`
payloads in document order, and whether it carries the `active` class. -/
structure Row : Type where
  idxAttr : Nat
  cells : List String
  active : Bool

/-- A `<li>` of the news list. -/
structure NewsItem : Type where
  url : String
  headline : String
  meta : String

/-- A `.perf-metric-card` of the performance metrics grid. -/
structure PerfCard : Type where
  label : String
  value : String
  color : String

/-- A `<tr>` of the trade log. -/
structure TradeRow : Type where
  ticker : String
  strategyText : String
  entryText : String
  exitText : String
  pnlText : String
  pnlClass : String
  statusText : String
  badgeClass : String

/-- The script globals plus the parts of the DOM the script reads or
writes.  `*Hidden` means the element carries the `hidden` class; `requests`
is the list of URLs passed to `fetch`, in issue order; `logs` collects
`console.error` messages. -/
structure AppState : Type where
  screenerData : JSVal
  reversionData : JSVal
  activeView : String
  panelTitleText : String
  screenerRows : List Row
  screenerTableHidden : Bool
  reversionRows : List Row
  reversionTableHidden : Bool
  screenerEmptyHidden : Bool
  screenerDateText : String
  regimeWarnHidden : Bool
  regimeBullHidden : Bool
  newsPanelHidden : Bool
  newsItems : List NewsItem
  newsLabelText : String
  activeTickerText : String
  chartPlaceholderHidden : Bool
  loadingOverlayHidden : Bool
  btnMomentumActive : Bool
  btnReversionActive : Bool
  btnPerformanceActive : Bool
  perfPanelHidden : Bool
  perfCards : List PerfCard
  tradeLogHidden : Bool
  tradeRows : List TradeRow
  perfEmptyHidden : Bool
  winRateText : String
  profitFactorText : String
  maxDrawdownText : String
  totalTradesText : String
  totalReturnText : String
  totalReturnColor : String
  chartInit : Bool
  equityColor : String
  equityData : JSVal
  requests : List String
  logs : List String

/-- The delivered outcome of one `fetch`: the promise rejected, or a
response arrived with the given `resp.ok` flag and `resp.json()` result
(`none` when the body is not valid JSON and `json()` rejects). -/
inductive FetchOutcome : Type
  | netError : FetchOutcome
  | response (ok : Bool) (body : Option JSVal) : FetchOutcome

/-- Evaluate a throwing subexpression inside a state transformer: a raised
TypeError aborts with the state current at the throw. -/
def bindE {α : Type} (x : Except Unit α) (st : AppState)
    (f : α → Except AppState AppState) : Except AppState AppState :=
  match x with
  | Except.error _ => Except.error st
  | Except.ok a => f a

def pushReq (st : AppState) (url : String) : AppState :=
  { st with requests := st.requests ++ [url] }

def logErr (st : AppState) (msg : String) : AppState :=
  { st with logs := st.logs ++ [msg] }

/-- `data.forEach((x, idx) => body)` building DOM children one at a time:
on a TypeError inside the callback the children appended so far remain. -/
def buildList {α : Type} (mk : Nat → JSVal → Except Unit α) :
    Nat → List JSVal → List α → List α × Bool
  | _, [], acc => (acc, false)
  | i, x :: xs, acc =>
    match mk i x with
    | Except.ok r => buildList mk (i + 1) xs (acc ++ [r])
    | Except.error _ => (acc, true)

/-- `initChart()` lines 10-45: creates the chart and the equity line
series with the fixed line color `#2962FF`. -/
def initChart (st : AppState) : AppState :=
  { st with chartInit := true, equityColor := "#2962FF" }

/-- One momentum `<tr>` (lines 177-189): the five `<td>` values in template
order; any failing property access or `toFixed` call raises. -/
def mkMomRow (i : Nat) (stock : JSVal) : Except Unit Row :=
  match getField stock "ticker" with
  | Except.error e => Except.error e
  | Except.ok tk =>
  match getField stock "rvol_at_trigger" with
  | Except.error e => Except.error e
  | Except.ok rv =>
  match callToFixed rv 2 with
  | Except.error e => Except.error e
  | Except.ok rvs =>
  match getField stock "atr_pct_at_trigger" with
  | Except.error e => Except.error e
  | Except.ok atr =>
  match callToFixed atr 1 with
  | Except.error e => Except.error e
  | Except.ok atrs =>
  match formatFlow stock with
  | Except.error e => Except.error e
  | Except.ok flow =>
  match getField stock "trigger_price" with
  | Except.error e => Except.error e
  | Except.ok tp =>
  match callToFixed tp 2 with
  | Except.error e => Except.error e
  | Except.ok tps =>
    Except.ok { idxAttr := i, active := false,
                cells := [jsToString tk, rvs, atrs ++ "%", flow, "$" ++ tps] }

/-- The guard `!cache || cache.signals.length === 0` shared by both signal
renderers, evaluated on an already-truthy cache. -/
def signalsLengthIsZero (v : JSVal) : Except Unit Bool :=
  match getField v "signals" with
  | Except.error e => Except.error e
  | Except.ok sig =>
    match getLength sig with
    | Except.error e => Except.error e
    | Except.ok len => Except.ok (jsEqZero len)

/-- `renderMomentumSignals()` lines 166-190. -/
def renderMomentumSignals (st : AppState) : Except AppState AppState :=
  if truthy st.screenerData = false then
    Except.ok { st with screenerTableHidden := true, screenerEmptyHidden := false }
  else
    bindE (signalsLengthIsZero st.screenerData) st fun isZero =>
    if isZero then
      Except.ok { st with screenerTableHidden := true, screenerEmptyHidden := false }
    else
      let st1 := { st with screenerEmptyHidden := true, screenerTableHidden := false,
                           screenerRows := [] }
      bindE (getField st1.screenerData "signals") st1 fun sig =>
      match sig with
      | JSVal.arr xs =>
        let built := buildList mkMomRow 0 xs []
        let st2 := { st1 with screenerRows := built.1 }
        if built.2 then Except.error st2 else Except.ok st2
      | _ => Except.error st1

/-- One reversion `<tr>` (lines 235-247). -/
def mkRevRow (i : Nat) (stock : JSVal) : Except Unit Row :=
  match getField stock "ticker" with
  | Except.error e => Except.error e
  | Except.ok tk =>
  match getField stock "rsi2" with
  | Except.error e => Except.error e
  | Except.ok rs =>
  match callToFixed rs 1 with
  | Except.error e => Except.error e
  | Except.ok rss =>
  match getField stock "drawdown_3d_pct" with
  | Except.error e => Except.error e
  | Except.ok dd =>
  match callToFixed dd 1 with
  | Except.error e => Except.error e
  | Except.ok dds =>
  match formatFlow stock with
  | Except.error e => Except.error e
  | Except.ok flow =>
  match getField stock "trigger_price" with
  | Except.error e => Except.error e
  | Except.ok tp =>
  match callToFixed tp 2 with
  | Except.error e => Except.error e
  | Except.ok tps =>
    Except.ok { idxAttr := i, active := false,
                cells := [jsToString tk, rss, dds ++ "%", flow, "$" ++ tps] }

/-- `renderReversionSignals()` lines 224-248. -/
def renderReversionSignals (st : AppState) : Except AppState AppState :=
  if truthy st.reversionData = false then
    Except.ok { st with reversionTableHidden := true, screenerEmptyHidden := false }
  else
    bindE (signalsLengthIsZero st.reversionData) st fun isZero =>
    if isZero then
      Except.ok { st with reversionTableHidden := true, screenerEmptyHidden := false }
    else
      let st1 := { st with screenerEmptyHidden := true, reversionTableHidden := false,
                           reversionRows := [] }
      bindE (getField st1.reversionData "signals") st1 fun sig =>
      match sig with
      | JSVal.arr xs =>
        let built := buildList mkRevRow 0 xs []
        let st2 := { st1 with reversionRows := built.1 }
        if built.2 then Except.error st2 else Except.ok st2
      | _ => Except.error st1

/-- One news `<li>` (lines 275-282). -/
def mkNewsItem (_ : Nat) (article : JSVal) : Except Unit NewsItem :=
  match getField article "url" with
  | Except.error e => Except.error e
  | Except.ok u =>
  match getField article "headline" with
  | Except.error e => Except.error e
  | Except.ok h =>
  match getField article "source" with
  | Except.error e => Except.error e
  | Except.ok src =>
  match getField article "published" with
  | Except.error e => Except.error e
  | Except.ok pub =>
    Except.ok { url := jsToString u, headline := jsToString h,
                meta := jsToString src ++ " &middot; " ++ jsToString pub }

/-- `showNews(stock)` lines 266-285. -/
def showNews (st : AppState) (stock : JSVal) : Except AppState AppState :=
  bindE (getField stock "news") st fun news =>
  if truthy news = false then
    Except.ok { st with newsPanelHidden := true }
  else
    bindE (getLength news) st fun len =>
    if jsEqZero len then
      Except.ok { st with newsPanelHidden := true }
    else
      bindE (getField stock "ticker") st fun tk =>
      let st1 := { st with newsLabelText := jsToString tk ++ " — Latest News",
                           newsItems := [] }
      match news with
      | JSVal.arr arts =>
        let built := buildList mkNewsItem 0 arts []
        let st2 := { st1 with newsItems := built.1 }
        if built.2 then Except.error st2
        else Except.ok { st2 with newsPanelHidden := false }
      | _ => Except.error st1

/-- The `querySelectorAll(...).forEach(r => r.classList.remove('active'))`
sweep over a table body. -/
def clearActive (rows : List Row) : List Row :=
  rows.map fun r => { r with active := false }

/-- `querySelector('tr[data-idx="i"]').classList.add('active')`: `none`
models the `querySelector` miss (and the ensuing TypeError on `null`). -/
def setActiveAt : List Row → Nat → Option (List Row)
  | [], _ => none
  | r :: rs, i =>
    if r.idxAttr = i then some ({ r with active := true } :: rs)
    else (setActiveAt rs i).map (fun rest => r :: rest)

/-- The synchronous prefix of `loadBacktest(ticker, strategy)` (lines
289-301): label/overlay updates, lazy chart init, and the `fetch` issue. -/
def loadBacktestStart (st : AppState) (ticker : JSVal) (strategy : String) : AppState :=
  let label := if strategy = "reversion" then "Reversion BT" else "Backtest"
  let st1 := { st with activeTickerText := label ++ ": " ++ jsToString ticker,
                       chartPlaceholderHidden := true,
                       loadingOverlayHidden := false }
  let st2 := if st1.chartInit = false then initChart st1 else st1
  pushReq st2 ("/api/backtest/" ++ jsToString ticker ++ "?strategy=" ++ strategy)

/-- The `try` block of `loadBacktest` after its `fetch` settles (lines
302-326); an `error` result is what the `catch` receives. -/
def loadBacktestTry (st : AppState) (ticker : JSVal) (outcome : FetchOutcome) :
    Except AppState AppState :=
  match outcome with
  | FetchOutcome.netError => Except.error st
  | FetchOutcome.response ok body =>
    if ok = false then
      match body with
      | none => Except.error st
      | some err =>
        bindE (getField err "detail") st fun d =>
        let st1 := logErr st "Backtest error:"
        let st2 := { st1 with activeTickerText := jsToString ticker ++ " — " ++ jsToString d }
        Except.ok { st2 with loadingOverlayHidden := true }
    else
      match body with
      | none => Except.error st
      | some data =>
        bindE (getField data "win_rate") st fun wr =>
        bindE (callToFixed wr 1) st fun wrs =>
        let stA := { st with winRateText := wrs }
        bindE (getField data "profit_factor") stA fun pf =>
        bindE (callToFixed pf 2) stA fun pfs =>
        let stB := { stA with profitFactorText := pfs }
        bindE (getField data "max_drawdown_pct") stB fun md =>
        bindE (callToFixed md 1) stB fun mds =>
        let stC := { stB with maxDrawdownText := mds }
        bindE (getField data "total_trades") stC fun tt =>
        let stD := { stC with totalTradesText := jsToString tt }
        bindE (getField data "total_return_pct") stD fun tr =>
        bindE (callToFixed tr 1) stD fun trs =>
        let stE := { stD with totalReturnText := trs }
        bindE (getField data "total_return_pct") stE fun tr2 =>
        let stF := { stE with
                       totalReturnColor := if jsGE0 tr2 then "#3fb950" else "#f85149" }
        bindE (getField data "equity_curve") stF fun ec =>
        Except.ok { stF with equityData := ec }

/-- The continuation of `loadBacktest` once its `fetch` settles (lines
302-331): the `try` block, the `catch`, and the `finally` that hides the
loading overlay. -/
def loadBacktestSettle (st : AppState) (ticker : JSVal) (outcome : FetchOutcome) : AppState :=
  match loadBacktestTry st ticker outcome with
  | Except.ok st9 => { st9 with loadingOverlayHidden := true }
  | Except.error st9 =>
      { (logErr st9 ("Error fetching backtest for " ++ jsToString ticker ++ ":")) with
        loadingOverlayHidden := true }

/-- A whole `loadBacktest(ticker, strategy)` call whose `fetch` settles
with `outcome`. -/
def loadBacktest (st : AppState) (ticker : JSVal) (strategy : String)
    (outcome : FetchOutcome) : AppState :=
  loadBacktestSettle (loadBacktestStart st ticker strategy) ticker outcome

/-- `onMomentumClick(idx)` lines 192-204; the `loadBacktest` it fires is
modelled up to its synchronous prefix (the response arrives later). -/
def onMomentumClick (st : AppState) (idx : Nat) : Except AppState AppState :=
  bindE (getField st.screenerData "signals") st fun sig =>
  bindE (getIndex sig idx) st fun stock =>
  let st1 := { st with screenerRows := clearActive st.screenerRows }
  match setActiveAt st1.screenerRows idx with
  | none => Except.error st1
  | some rows =>
    let st2 := { st1 with screenerRows := rows }
    match showNews st2 stock with
    | Except.error e => Except.error e
    | Except.ok st3 =>
      bindE (getField stock "ticker") st3 fun tk =>
      Except.ok (loadBacktestStart st3 tk "momentum")

/-- `onReversionClick(idx)` lines 250-262. -/
def onReversionClick (st : AppState) (idx : Nat) : Except AppState AppState :=
  bindE (getField st.reversionData "signals") st fun sig =>
  bindE (getIndex sig idx) st fun stock =>
  let st1 := { st with reversionRows := clearActive st.reversionRows }
  match setActiveAt st1.reversionRows idx with
  | none => Except.error st1
  | some rows =>
    let st2 := { st1 with reversionRows := rows }
    let st3 := { st2 with newsPanelHidden := true }
    bindE (getField stock "ticker") st3 fun tk =>
    Except.ok (loadBacktestStart st3 tk "reversion")

/-- The `try` body of `fetchScreenerData` after a parsed response (lines
143-159). -/
def fetchScreenerDataBody (st : AppState) (data : JSVal) : Except AppState AppState :=
  let st1 := { st with screenerData := data }
  bindE (getField data "date") st1 fun d =>
  let st2 := { st1 with screenerDateText := jsToString d }
  let st3 := { st2 with regimeWarnHidden := true, regimeBullHidden := true }
  bindE (getField data "regime") st3 fun r1 =>
  bindE (getField r1 "regime") st3 fun r2 =>
  let st4 :=
    if jsStrEq r2 "Bearish" then { st3 with regimeWarnHidden := false }
    else if jsStrEq r2 "Bullish" then { st3 with regimeBullHidden := false }
    else st3
  if st4.activeView = "momentum" then renderMomentumSignals st4 else Except.ok st4

/-- `fetchScreenerData()` from the settling of its `fetch` onward (lines
140-163); every raised error is caught and logged. -/
def fetchScreenerDataComplete (st : AppState) (outcome : FetchOutcome) : AppState :=
  match outcome with
  | FetchOutcome.netError => logErr st "Error fetching screener data:"
  | FetchOutcome.response _ body =>
    match body with
    | none => logErr st "Error fetching screener data:"
    | some data =>
      match fetchScreenerDataBody st data with
      | Except.ok st1 => st1
      | Except.error st1 => logErr st1 "Error fetching screener data:"

/-- A whole `fetchScreenerData()` call: the request issue followed by the
delivered outcome. -/
def fetchScreenerData (st : AppState) (outcome : FetchOutcome) : AppState :=
  fetchScreenerDataComplete (pushReq st "/api/screener/today") outcome

/-- `fetchReversionData()` from the settling of its `fetch` onward (lines
208-222). -/
def fetchReversionDataComplete (st : AppState) (outcome : FetchOutcome) : AppState :=
  match outcome with
  | FetchOutcome.netError => logErr st "Error fetching reversion data:"
  | FetchOutcome.response _ body =>
    match body with
    | none => logErr st "Error fetching reversion data:"
    | some data =>
      let st1 := { st with reversionData := data }
      let attempt : Except AppState AppState :=
        if st1.activeView = "reversion" then
          bindE (getField data "date") st1 fun d =>
          renderReversionSignals { st1 with screenerDateText := jsToString d }
        else Except.ok st1
      match attempt with
      | Except.ok st2 => st2
      | Except.error st2 => logErr st2 "Error fetching reversion data:"

/-- A whole `fetchReversionData()` call. -/
def fetchReversionData (st : AppState) (outcome : FetchOutcome) : AppState :=
  fetchReversionDataComplete (pushReq st "/api/reversion/today") outcome

/-- `renderPerfMetrics(m)` lines 352-382: the two colors are computed
first, then the template is evaluated in full before the grid is
replaced, so a TypeError leaves the grid untouched. -/
def renderPerfMetrics (st : AppState) (m : JSVal) : Except AppState AppState :=
  bindE (getField m "total_pnl") st fun pnl0 =>
  let pnlColor := if jsGE0 pnl0 then "var(--green)" else "var(--red)"
  bindE (getField m "avg_return_pct") st fun avg0 =>
  let avgColor := if jsGE0 avg0 then "var(--green)" else "var(--red)"
  bindE (getField m "total_pnl") st fun pnl =>
  bindE (callToFixed pnl 2) st fun pnls =>
  bindE (getField m "win_rate") st fun wr =>
  bindE (callToFixed wr 1) st fun wrs =>
  bindE (getField m "profit_factor") st fun pf =>
  bindE (callToFixed pf 2) st fun pfs =>
  bindE (getField m "closed_trades") st fun ct =>
  bindE (getField m "total_trades") st fun tt =>
  bindE (getField m "avg_return_pct") st fun avg =>
  bindE (callToFixed avg 2) st fun avgs =>
  bindE (getField m "avg_hold_days") st fun ahd =>
  bindE (callToFixed ahd 1) st fun ahds =>
  Except.ok { st with perfCards := [
    { label := "Total PnL", value := "$" ++ pnls, color := pnlColor },
    { label := "Win Rate", value := wrs ++ "%", color := "" },
    { label := "Profit Factor", value := pfs, color := "" },
    { label := "Trades", value := jsToString ct ++ " / " ++ jsToString tt, color := "" },
    { label := "Avg Return", value := avgs ++ "%", color := avgColor },
    { label := "Avg Hold", value := ahds ++ "d", color := "" } ] }

/-- One trade-log `<tr>` (lines 395-415). -/
def mkTradeRow (_ : Nat) (t : JSVal) : Except Unit TradeRow :=
  match getField t "pnl_pct" with
  | Except.error e => Except.error e
  | Except.ok p =>
  (if jsNotNull p then
      match callToFixed p 2 with
      | Except.error e => Except.error e
      | Except.ok s => Except.ok (s ++ "%")
    else Except.ok "--").bind fun pnlVal =>
  let pnlClass := if jsGT0 p then "pnl-positive" else if jsLT0 p then "pnl-negative" else ""
  match getField t "entry_price" with
  | Except.error e => Except.error e
  | Except.ok ep =>
  (if jsNotNull ep then
      match callToFixed ep 2 with
      | Except.error e => Except.error e
      | Except.ok s => Except.ok ("$" ++ s)
    else Except.ok "--").bind fun entryStr =>
  match getField t "exit_price" with
  | Except.error e => Except.error e
  | Except.ok xp =>
  (if jsNotNull xp then
      match callToFixed xp 2 with
      | Except.error e => Except.error e
      | Except.ok s => Except.ok ("$" ++ s)
    else Except.ok "--").bind fun exitStr =>
  match getField t "status" with
  | Except.error e => Except.error e
  | Except.ok stv =>
  let badgeClass :=
    if jsStrEq stv "open" then "status-open"
    else if jsStrEq stv "closed" then "status-closed"
    else "status-pending"
  match getField t "ticker" with
  | Except.error e => Except.error e
  | Except.ok tk =>
  match getField t "strategy" with
  | Except.error e => Except.error e
  | Except.ok strat =>
  match getField t "status" with
  | Except.error e => Except.error e
  | Except.ok stv2 =>
    Except.ok { ticker := jsToString tk, strategyText := jsToString strat,
                entryText := entryStr, exitText := exitStr, pnlText := pnlVal,
                pnlClass := pnlClass, statusText := jsToString stv2,
                badgeClass := badgeClass }

/-- `renderTradeLog(trades)` lines 384-416. -/
def renderTradeLog (st : AppState) (trades : JSVal) : Except AppState AppState :=
  if truthy trades = false then
    Except.ok { st with tradeLogHidden := true, perfEmptyHidden := false }
  else
    bindE (getLength trades) st fun len =>
    if jsEqZero len then
      Except.ok { st with tradeLogHidden := true, perfEmptyHidden := false }
    else
      let st1 := { st with perfEmptyHidden := true, tradeLogHidden := false,
                           tradeRows := [] }
      match trades with
      | JSVal.arr ts =>
        let built := buildList mkTradeRow 0 ts []
        let st2 := { st1 with tradeRows := built.1 }
        if built.2 then Except.error st2 else Except.ok st2
      | _ => Except.error st1

/-- The synchronous prefix of `fetchPerformanceData()` (lines 336-341):
`Promise.all` issues the metrics fetch and then the trades fetch. -/
def fetchPerformanceDataStart (st : AppState) : AppState :=
  pushReq (pushReq st "/api/paper/metrics") "/api/paper/trades?status=all"

/-- The `try` block of `fetchPerformanceData` once both fetches settle
(lines 342-346). -/
def fetchPerformanceDataTry (st : AppState)
    (metricsOutcome tradesOutcome : FetchOutcome) : Except AppState AppState :=
  match metricsOutcome, tradesOutcome with
  | FetchOutcome.netError, _ => Except.error st
  | _, FetchOutcome.netError => Except.error st
  | FetchOutcome.response _ mbody, FetchOutcome.response _ tbody =>
    match mbody with
    | none => Except.error st
    | some metrics =>
      match tbody with
      | none => Except.error st
      | some tradesData =>
        match renderPerfMetrics st metrics with
        | Except.error e => Except.error e
        | Except.ok st1 =>
          bindE (getField tradesData "trades") st1 fun tr =>
          renderTradeLog st1 tr

/-- The continuation of `fetchPerformanceData` once both fetches settle
(lines 342-349); every raised error is caught and logged. -/
def fetchPerformanceDataComplete (st : AppState)
    (metricsOutcome tradesOutcome : FetchOutcome) : AppState :=
  match fetchPerformanceDataTry st metricsOutcome tradesOutcome with
  | Except.ok st9 => st9
  | Except.error st9 => logErr st9 "Error fetching performance data:"

/-- Lines 90-102 of `switchView`: record the active view, toggle the three
button `active` classes, and hide all five panels. -/
def viewBase (st : AppState) (view : String) : AppState :=
  { st with
    activeView := view,
    btnMomentumActive := decide (view = "momentum"),
    btnReversionActive := decide (view = "reversion"),
    btnPerformanceActive := decide (view = "performance"),
    screenerTableHidden := true,
    reversionTableHidden := true,
    perfPanelHidden := true,
    newsPanelHidden := true,
    screenerEmptyHidden := true }

/-- The state `switchView` hands to `renderMomentumSignals` (buttons
toggled, panels hidden, title set). -/
def momentumViewPre (st : AppState) : AppState :=
  { viewBase st "momentum" with panelTitleText := "Momentum Triggers" }

/-- The state `switchView` hands to `renderReversionSignals`. -/
def reversionViewPre (st : AppState) : AppState :=
  { viewBase st "reversion" with panelTitleText := "Oversold Reversions" }

/-- The state after the performance branch of `switchView`: panel shown,
title set, and the two fetches of `fetchPerformanceData()` issued. -/
def performanceViewState (st : AppState) : AppState :=
  fetchPerformanceDataStart
    { viewBase st "performance" with
      panelTitleText := "Paper Trading",
      perfPanelHidden := false }

/-- `switchView(view)` lines 89-116; for the performance view the
synchronous part of the `fetchPerformanceData()` it fires issues the two
requests. -/
def switchView (st : AppState) (view : String) : Except AppState AppState :=
  if view = "momentum" then renderMomentumSignals (momentumViewPre st)
  else if view = "reversion" then renderReversionSignals (reversionViewPre st)
  else if view = "performance" then Except.ok (performanceViewState st)
  else Except.ok (viewBase st view)

/-- The DOM state an execution leaves behind, whether or not it threw. -/
def resultState : Except AppState AppState → AppState
  | Except.ok st => st
  | Except.error st => st

/-- Whether an execution raised an uncaught exception. -/
def jsThrows : Except AppState AppState → Bool
  | Except.ok _ => false
  | Except.error _ => true

/-- A representative page-load state: `null` caches, momentum view, chart
not yet created, no rows rendered.  Concrete theorems do not depend on its
particulars. -/
def initialState : AppState where
  screenerData := JSVal.null
  reversionData := JSVal.null
  activeView := "momentum"
  panelTitleText := "Momentum Triggers"
  screenerRows := []
  screenerTableHidden := true
  reversionRows := []
  reversionTableHidden := true
  screenerEmptyHidden := false
  screenerDateText := ""
  regimeWarnHidden := true
  regimeBullHidden := true
  newsPanelHidden := true
  newsItems := []
  newsLabelText := ""
  activeTickerText := ""
  chartPlaceholderHidden := false
  loadingOverlayHidden := true
  btnMomentumActive := true
  btnReversionActive := false
  btnPerformanceActive := false
  perfPanelHidden := true
  perfCards := []
  tradeLogHidden := true
  tradeRows := []
  perfEmptyHidden := false
  winRateText := "--"
  profitFactorText := "--"
  maxDrawdownText := "--"
  totalTradesText := "--"
  totalReturnText := "--"
  totalReturnColor := ""
  chartInit := false
  equityColor := ""
  equityData := JSVal.undef
  requests := []
  logs := []

/-- Whether property access on `v` is safe (`v` is neither `null` nor
`undefined`). -/
def accessible : JSVal → Bool
  | JSVal.null => false
  | JSVal.undef => false
  | _ => true

/-- Field `k` of `s` is present and a number. -/
def isNumField (s : JSVal) (k : String) : Bool :=
  match getField s k with
  | Except.ok (JSVal.num _) => true
  | _ => false

/-- Field `k` of `s` reads as a number, `null`, or `undefined` — the shapes
the data model allows for a nullable numeric field. -/
def nullableNumField (s : JSVal) (k : String) : Bool :=
  match getField s k with
  | Except.ok JSVal.null => true
  | Except.ok JSVal.undef => true
  | Except.ok (JSVal.num _) => true
  | _ => false

/-- `v` is an array of accessible articles. -/
def newsArrayOK : JSVal → Bool
  | JSVal.arr xs => xs.all accessible
  | _ => false

/-- The `news` field of `s` is absent/falsy or an array of accessible
articles — what `showNews` needs to run without a TypeError. -/
def newsField (s : JSVal) : Bool :=
  match getField s "news" with
  | Except.ok v => if truthy v = false then true else newsArrayOK v
  | Except.error _ => false

/-- A momentum signal conforming to the documented data model as far as the
renderer and click handler dereference it. -/
def WFMomStock (s : JSVal) : Bool :=
  accessible s && isNumField s "rvol_at_trigger" && isNumField s "atr_pct_at_trigger" &&
    isNumField s "trigger_price" && nullableNumField s "put_call_ratio" && newsField s

/-- A reversion signal conforming to the documented data model. -/
def WFRevStock (s : JSVal) : Bool :=
  accessible s && isNumField s "rsi2" && isNumField s "drawdown_3d_pct" &&
    isNumField s "trigger_price" && nullableNumField s "put_call_ratio"

/-- A cached screener body that is falsy (e.g. still `null`) or carries a
`signals` array of conforming stocks. -/
def WFCache (stockOK : JSVal → Bool) (v : JSVal) : Bool :=
  !truthy v ||
    (match getField v "signals" with
     | Except.ok (JSVal.arr xs) => xs.all stockOK
     | _ => false)

def WFScreenerCache : JSVal → Bool := WFCache WFMomStock

def WFReversionCache : JSVal → Bool := WFCache WFRevStock

/-- The cache is truthy with a non-empty `signals` array — the condition
under which the renderers fill the table instead of the empty state. -/
def cacheNonEmpty (v : JSVal) : Bool :=
  truthy v &&
    (match getField v "signals" with
     | Except.ok (JSVal.arr xs) => !xs.isEmpty
     | _ => false)

/-- The fetch settles by throwing: the network request failed or the body
was not valid JSON. -/
def fetchFailed : FetchOutcome → Bool
  | FetchOutcome.netError => true
  | FetchOutcome.response _ none => true
  | FetchOutcome.response _ (some _) => false

/-- The exact rational -5.2 (raw constructor, kernel-reducible). -/
def negFivePointTwo : ℚ := ⟨-26, 5, by decide, by decide⟩

/-- The exact rational 1.5. -/
def threeHalves : ℚ := ⟨3, 2, by decide, by decide⟩

def sampleArticle : JSVal := JSVal.obj [("url", JSVal.str "https://example.com/a"),
  ("headline", JSVal.str "Breakout"), ("source", JSVal.str "Wire"),
  ("published", JSVal.str "2026-01-02")]

def sampleMomStock : JSVal := JSVal.obj [("ticker", JSVal.str "AAPL"),
  ("rvol_at_trigger", JSVal.num 3), ("atr_pct_at_trigger", JSVal.num 4),
  ("trigger_price", JSVal.num 101), ("options_sentiment", JSVal.str "Bullish"),
  ("put_call_ratio", JSVal.num 2), ("news", JSVal.arr [sampleArticle])]

def sampleMomStock2 : JSVal := JSVal.obj [("ticker", JSVal.str "MSFT"),
  ("rvol_at_trigger", JSVal.num 5), ("atr_pct_at_trigger", JSVal.num 6),
  ("trigger_price", JSVal.num 50), ("options_sentiment", JSVal.null),
  ("put_call_ratio", JSVal.null), ("news", JSVal.arr [])]

def sampleScreener : JSVal := JSVal.obj [("date", JSVal.str "2026-01-02"),
  ("regime", JSVal.obj [("regime", JSVal.str "Bullish")]),
  ("signals", JSVal.arr [sampleMomStock, sampleMomStock2])]

def sampleRevStock : JSVal := JSVal.obj [("ticker", JSVal.str "KO"),
  ("rsi2", JSVal.num 7), ("drawdown_3d_pct", JSVal.num (-8)),
  ("trigger_price", JSVal.num 60), ("options_sentiment", JSVal.str "Bearish"),
  ("put_call_ratio", JSVal.num 1)]

def sampleReversion : JSVal := JSVal.obj [("date", JSVal.str "2026-01-02"),
  ("signals", JSVal.arr [sampleRevStock])]

def sampleBacktestNeg : JSVal := JSVal.obj [("win_rate", JSVal.num 55),
  ("profit_factor", JSVal.num 2), ("max_drawdown_pct", JSVal.num 9),
  ("total_trades", JSVal.num 12), ("total_return_pct", JSVal.num negFivePointTwo),
  ("equity_curve", JSVal.arr [])]

def sampleBacktestPos : JSVal := JSVal.obj [("win_rate", JSVal.num 55),
  ("profit_factor", JSVal.num 2), ("max_drawdown_pct", JSVal.num 9),
  ("total_trades", JSVal.num 12), ("total_return_pct", JSVal.num 5),
  ("equity_curve", JSVal.arr [])]

def sampleMetrics : JSVal := JSVal.obj [("total_pnl", JSVal.num 100),
  ("win_rate", JSVal.num 60), ("profit_factor", JSVal.num 3),
  ("closed_trades", JSVal.num 4), ("total_trades", JSVal.num 7),
  ("avg_return_pct", JSVal.num 1), ("avg_hold_days", JSVal.num 5)]

def sampleTradesBody : JSVal := JSVal.obj [("trades", JSVal.arr [])]

/-- A stock whose `options_sentiment` is the empty string (falsy, and not
one of the three recognised sentiments) with a numeric put/call ratio. -/
def emptySentimentStock : JSVal := JSVal.obj [("options_sentiment", JSVal.str ""),
  ("put_call_ratio", JSVal.num threeHalves)]

/-- A stock with an unrecognised truthy sentiment and a null ratio. -/
def weirdSentimentStock : JSVal := JSVal.obj [("options_sentiment", JSVal.str "Weird"),
  ("put_call_ratio", JSVal.null)]

/-- A page state with conforming non-empty caches for both screeners. -/
def wfCachesState : AppState :=
  { initialState with
    screenerData := sampleScreener,
    reversionData := sampleReversion }

/-- A page state whose caches both hold a body with an empty `signals`
array. -/
def emptySignalsState : AppState :=
  { initialState with
    screenerData := JSVal.obj [("signals", JSVal.arr [])],
    reversionData := JSVal.obj [("signals", JSVal.arr [])] }

/-- The state after a screener fetch delivered the malformed (but valid
JSON) empty-object body while the reversion view was active. -/
def malformedCachedState : AppState :=
  fetchScreenerData { initialState with activeView := "reversion" }
    (FetchOutcome.response true (some (JSVal.obj [])))

/- Helper lemmas used by several claim proofs. -/

lemma accessible_getField (s : JSVal) (k : String) (h : accessible s = true) :
    ∃ v, getField s k = Except.ok v := by
  cases s <;> simp [accessible] at h <;> simp [getField]

lemma isNumField_spec (s : JSVal) (k : String) (h : isNumField s k = true) :
    ∃ q, getField s k = Except.ok (JSVal.num q) := by
  unfold isNumField at h
  cases hg : getField s k with
  | error e => rw [hg] at h; simp at h
  | ok v =>
    rw [hg] at h
    cases v <;> simp at h
    exact ⟨_, rfl⟩

lemma nullableNum_spec (s : JSVal) (k : String) (h : nullableNumField s k = true) :
    ∃ v, getField s k = Except.ok v ∧
      (v = JSVal.null ∨ v = JSVal.undef ∨ ∃ q, v = JSVal.num q) := by
  unfold nullableNumField at h
  cases hg : getField s k with
  | error e => rw [hg] at h; simp at h
  | ok v =>
    rw [hg] at h
    cases v <;> simp at h
    · exact ⟨_, rfl, Or.inr (Or.inl rfl)⟩
    · exact ⟨_, rfl, Or.inl rfl⟩
    · exact ⟨_, rfl, Or.inr (Or.inr ⟨_, rfl⟩)⟩

lemma formatFlow_ok (s : JSVal) (ha : accessible s = true)
    (hp : nullableNumField s "put_call_ratio" = true) :
    ∃ out, formatFlow s = Except.ok out := by
  obtain ⟨sv, hsv⟩ := accessible_getField s "options_sentiment" ha
  obtain ⟨pv, hpv, hshape⟩ := nullableNum_spec s "put_call_ratio" hp
  unfold formatFlow
  rw [hsv, hpv]
  rcases hshape with rfl | rfl | ⟨q, rfl⟩ <;>
    simp [jsNotNull, callToFixed] <;>
    (repeat' split) <;> exact ⟨_, rfl⟩

lemma mkMomRow_ok (i : Nat) (s : JSVal) (h : WFMomStock s = true) :
    ∃ r, mkMomRow i s = Except.ok r ∧ r.idxAttr = i ∧ r.active = false := by
  unfold WFMomStock at h
  simp only [Bool.and_eq_true] at h
  obtain ⟨⟨⟨⟨⟨ha, h1⟩, h2⟩, h3⟩, h4⟩, _⟩ := h
  obtain ⟨tk, htk⟩ := accessible_getField s "ticker" ha
  obtain ⟨q1, h1'⟩ := isNumField_spec _ _ h1
  obtain ⟨q2, h2'⟩ := isNumField_spec _ _ h2
  obtain ⟨q3, h3'⟩ := isNumField_spec _ _ h3
  obtain ⟨fl, hfl⟩ := formatFlow_ok s ha h4
  unfold mkMomRow
  rw [htk, h1', h2', h3', hfl]
  exact ⟨_, rfl, rfl, rfl⟩

lemma mkRevRow_ok (i : Nat) (s : JSVal) (h : WFRevStock s = true) :
    ∃ r, mkRevRow i s = Except.ok r ∧ r.idxAttr = i ∧ r.active = false := by
  unfold WFRevStock at h
  simp only [Bool.and_eq_true] at h
  obtain ⟨⟨⟨⟨ha, h1⟩, h2⟩, h3⟩, h4⟩ := h
  obtain ⟨tk, htk⟩ := accessible_getField s "ticker" ha
  obtain ⟨q1, h1'⟩ := isNumField_spec _ _ h1
  obtain ⟨q2, h2'⟩ := isNumField_spec _ _ h2
  obtain ⟨q3, h3'⟩ := isNumField_spec _ _ h3
  obtain ⟨fl, hfl⟩ := formatFlow_ok s ha h4
  unfold mkRevRow
  rw [htk, h1', h2', h3', hfl]
  exact ⟨_, rfl, rfl, rfl⟩

lemma buildList_rows {W : JSVal → Bool} {mk : Nat → JSVal → Except Unit Row}
    (hmk : ∀ i x, W x = true → ∃ r, mk i x = Except.ok r ∧ r.idxAttr = i ∧ r.active = false) :
    ∀ (xs : List JSVal) (i0 : Nat) (acc : List Row), (∀ x ∈ xs, W x = true) →
      ∃ rs, buildList mk i0 xs acc = (acc ++ rs, false) ∧ rs.length = xs.length ∧
        (∀ j (hj : j < rs.length),
          (rs.get ⟨j, hj⟩).idxAttr = i0 + j ∧ (rs.get ⟨j, hj⟩).active = false)
  | [], i0, acc, _ => ⟨[], by simp [buildList], rfl, by intro j hj; simp at hj⟩
  | x :: xs, i0, acc, hall => by
    obtain ⟨r, hr, hidx, hact⟩ := hmk i0 x (hall x (List.mem_cons_self x xs))
    obtain ⟨rs, hb, hlen, hprop⟩ := buildList_rows hmk xs (i0 + 1) (acc ++ [r])
      (fun y hy => hall y (List.mem_cons_of_mem x hy))
    refine ⟨r :: rs, ?_, by simp [hlen], ?_⟩
    · have hstep : buildList mk i0 (x :: xs) acc = buildList mk (i0 + 1) xs (acc ++ [r]) := by
        conv_lhs => rw [buildList]
        rw [hr]
      rw [hstep, hb, List.append_assoc]
      rfl
    · intro j hj
      cases j with
      | zero => exact ⟨by simpa using hidx, hact⟩
      | succ j' =>
        have hj' : j' < rs.length := by simpa using hj
        have hp := hprop j' hj'
        have hget : (r :: rs).get ⟨j' + 1, hj⟩ = rs.get ⟨j', hj'⟩ := rfl
        refine ⟨?_, ?_⟩
        · rw [hget, hp.1]; omega
        · rw [hget, hp.2]

lemma buildList_noThrow {α : Type} {W : JSVal → Bool} {mk : Nat → JSVal → Except Unit α}
    (hmk : ∀ i x, W x = true → ∃ r, mk i x = Except.ok r) :
    ∀ (xs : List JSVal) (i0 : Nat) (acc : List α), (∀ x ∈ xs, W x = true) →
      (buildList mk i0 xs acc).2 = false
  | [], _, _, _ => rfl
  | x :: xs, i0, acc, hall => by
    obtain ⟨r, hr⟩ := hmk i0 x (hall x (List.mem_cons_self x xs))
    have hstep : buildList mk i0 (x :: xs) acc = buildList mk (i0 + 1) xs (acc ++ [r]) := by
      conv_lhs => rw [buildList]
      rw [hr]
    rw [hstep]
    exact buildList_noThrow hmk xs (i0 + 1) (acc ++ [r])
      (fun y hy => hall y (List.mem_cons_of_mem x hy))

lemma mkNewsItem_ok (i : Nat) (a : JSVal) (h : accessible a = true) :
    ∃ r, mkNewsItem i a = Except.ok r := by
  obtain ⟨v1, h1⟩ := accessible_getField a "url" h
  obtain ⟨v2, h2⟩ := accessible_getField a "headline" h
  obtain ⟨v3, h3⟩ := accessible_getField a "source" h
  obtain ⟨v4, h4⟩ := accessible_getField a "published" h
  unfold mkNewsItem
  rw [h1, h2, h3, h4]
  exact ⟨_, rfl⟩

lemma truthy_of_signals {v : JSVal} {xs : List JSVal}
    (h : getField v "signals" = Except.ok (JSVal.arr xs)) : truthy v = true := by
  cases hv : v <;> rw [hv] at h <;> simp [getField] at h <;> simp [truthy]



lemma cacheNonEmpty_spec (v : JSVal) (h : cacheNonEmpty v = true) :
    truthy v = true ∧ ∃ xs, getField v "signals" = Except.ok (JSVal.arr xs) ∧ xs ≠ [] := by
  unfold cacheNonEmpty at h
  simp only [Bool.and_eq_true] at h
  obtain ⟨ht, hm⟩ := h
  refine ⟨ht, ?_⟩
  cases hg : getField v "signals" with
  | error e => rw [hg] at hm; simp at hm
  | ok sig =>
    rw [hg] at hm
    cases sig <;> simp at hm
    exact ⟨_, rfl, by simpa [List.isEmpty_iff] using hm⟩

lemma cacheNonEmpty_false_of_truthy (v : JSVal) (xs : List JSVal)
    (ht : truthy v = true) (hg : getField v "signals" = Except.ok (JSVal.arr xs))
    (h : cacheNonEmpty v = false) : xs = [] := by
  unfold cacheNonEmpty at h
  rw [ht, hg] at h
  simpa [List.isEmpty_iff] using h

lemma WFCache_signals {W : JSVal → Bool} {v : JSVal} {xs : List JSVal}
    (hwf : WFCache W v = true) (ht : truthy v = true)
    (hg : getField v "signals" = Except.ok (JSVal.arr xs)) :
    ∀ x ∈ xs, W x = true := by
  unfold WFCache at hwf
  rw [ht, hg] at hwf
  simpa [List.all_eq_true] using hwf

lemma renderMomentum_nonempty (st : AppState) (xs : List JSVal)
    (hg : getField st.screenerData "signals" = Except.ok (JSVal.arr xs))
    (hwf : ∀ x ∈ xs, WFMomStock x = true) (hne : xs ≠ []) :
    ∃ rows, renderMomentumSignals st = Except.ok
        { st with screenerEmptyHidden := true, screenerTableHidden := false,
                  screenerRows := rows } ∧
      rows.length = xs.length ∧
      (∀ j (hj : j < rows.length),
        (rows.get ⟨j, hj⟩).idxAttr = j ∧ (rows.get ⟨j, hj⟩).active = false) := by
  have ht := truthy_of_signals hg
  obtain ⟨rs, hb, hlen, hprop⟩ := buildList_rows mkMomRow_ok xs 0 [] hwf
  refine ⟨rs, ?_, hlen, fun j hj => ⟨by simpa using (hprop j hj).1, (hprop j hj).2⟩⟩
  have hlz : signalsLengthIsZero st.screenerData = Except.ok false := by
    unfold signalsLengthIsZero
    rw [hg]
    simp [getLength, jsEqZero, List.length_eq_zero, hne]
  unfold renderMomentumSignals
  rw [ht]
  simp only [Bool.true_eq_false, if_false, hlz, bindE]
  rw [if_neg (by simp)]
  simp only [hg]
  rw [hb]
  simp

lemma renderMomentum_empty (st : AppState)
    (hwf : WFScreenerCache st.screenerData = true)
    (hce : cacheNonEmpty st.screenerData = false) :
    renderMomentumSignals st = Except.ok
      { st with screenerTableHidden := true, screenerEmptyHidden := false } := by
  by_cases ht : truthy st.screenerData = false
  · unfold renderMomentumSignals
    rw [if_pos ht]
  · have ht' : truthy st.screenerData = true := by
      revert ht; cases truthy st.screenerData <;> simp
    unfold WFScreenerCache WFCache at hwf
    rw [ht'] at hwf
    simp only [Bool.not_true, Bool.false_or] at hwf
    cases hg : getField st.screenerData "signals" with
    | error e => rw [hg] at hwf; simp at hwf
    | ok sig =>
      cases sig with
      | arr xs =>
        rw [hg] at hwf
        have hxs : xs = [] := cacheNonEmpty_false_of_truthy _ _ ht' hg hce
        subst hxs
        have hlz : signalsLengthIsZero st.screenerData = Except.ok true := by
          unfold signalsLengthIsZero
          rw [hg]
          simp [getLength, jsEqZero]
        unfold renderMomentumSignals
        rw [ht']
        simp only [Bool.true_eq_false, if_false, hlz, bindE]
        simp
      | undef => rw [hg] at hwf; simp at hwf
      | null => rw [hg] at hwf; simp at hwf
      | bool b => rw [hg] at hwf; simp at hwf
      | num q => rw [hg] at hwf; simp at hwf
      | str t => rw [hg] at hwf; simp at hwf
      | obj fs => rw [hg] at hwf; simp at hwf



lemma renderReversion_nonempty (st : AppState) (xs : List JSVal)
    (hg : getField st.reversionData "signals" = Except.ok (JSVal.arr xs))
    (hwf : ∀ x ∈ xs, WFRevStock x = true) (hne : xs ≠ []) :
    ∃ rows, renderReversionSignals st = Except.ok
        { st with screenerEmptyHidden := true, reversionTableHidden := false,
                  reversionRows := rows } ∧
      rows.length = xs.length ∧
      (∀ j (hj : j < rows.length),
        (rows.get ⟨j, hj⟩).idxAttr = j ∧ (rows.get ⟨j, hj⟩).active = false) := by
  have ht := truthy_of_signals hg
  obtain ⟨rs, hb, hlen, hprop⟩ := buildList_rows mkRevRow_ok xs 0 [] hwf
  refine ⟨rs, ?_, hlen, fun j hj => ⟨by simpa using (hprop j hj).1, (hprop j hj).2⟩⟩
  have hlz : signalsLengthIsZero st.reversionData = Except.ok false := by
    unfold signalsLengthIsZero
    rw [hg]
    simp [getLength, jsEqZero, List.length_eq_zero, hne]
  unfold renderReversionSignals
  rw [ht]
  simp only [Bool.true_eq_false, if_false, hlz, bindE]
  rw [if_neg (by simp)]
  simp only [hg]
  rw [hb]
  simp

lemma renderReversion_empty (st : AppState)
    (hwf : WFReversionCache st.reversionData = true)
    (hce : cacheNonEmpty st.reversionData = false) :
    renderReversionSignals st = Except.ok
      { st with reversionTableHidden := true, screenerEmptyHidden := false } := by
  by_cases ht : truthy st.reversionData = false
  · unfold renderReversionSignals
    rw [if_pos ht]
  · have ht' : truthy st.reversionData = true := by
      revert ht; cases truthy st.reversionData <;> simp
    unfold WFReversionCache WFCache at hwf
    rw [ht'] at hwf
    simp only [Bool.not_true, Bool.false_or] at hwf
    cases hg : getField st.reversionData "signals" with
    | error e => rw [hg] at hwf; simp at hwf
    | ok sig =>
      cases sig with
      | arr xs =>
        have hxs : xs = [] := cacheNonEmpty_false_of_truthy _ _ ht' hg hce
        subst hxs
        have hlz : signalsLengthIsZero st.reversionData = Except.ok true := by
          unfold signalsLengthIsZero
          rw [hg]
          simp [getLength, jsEqZero]
        unfold renderReversionSignals
        rw [ht']
        simp only [Bool.true_eq_false, if_false, hlz, bindE]
        simp
      | undef => rw [hg] at hwf; simp at hwf
      | null => rw [hg] at hwf; simp at hwf
      | bool b => rw [hg] at hwf; simp at hwf
      | num q => rw [hg] at hwf; simp at hwf
      | str t => rw [hg] at hwf; simp at hwf
      | obj fs => rw [hg] at hwf; simp at hwf

lemma setActiveAt_pattern :
    ∀ (rows : List Row) (i0 i : Nat),
      (∀ j (hj : j < rows.length),
        (rows.get ⟨j, hj⟩).idxAttr = i0 + j ∧ (rows.get ⟨j, hj⟩).active = false) →
      i0 ≤ i → i < i0 + rows.length →
      ∃ rows2, setActiveAt rows i = some rows2 ∧ rows2.length = rows.length ∧
        ∀ j (hj : j < rows2.length), (rows2.get ⟨j, hj⟩).active = decide (i0 + j = i)
  | [], i0, i, _, hle, hlt => absurd hlt (by simp; omega)
  | r :: rs, i0, i, hprop, hle, hlt => by
    have hr0 : r.idxAttr = i0 := by simpa using (hprop 0 (by simp)).1
    by_cases hi : i = i0
    · subst hi
      refine ⟨{ r with active := true } :: rs, ?_, by simp, ?_⟩
      · unfold setActiveAt
        rw [if_pos (by rw [hr0])]
      · intro j hj
        cases j with
        | zero => simp
        | succ j' =>
          have hj' : j' < rs.length := by simpa using hj
          have hp := hprop (j' + 1) (by simpa using hj')
          have hget : (({ r with active := true } : Row) :: rs).get ⟨j' + 1, hj⟩
              = rs.get ⟨j', hj'⟩ := rfl
          rw [hget]
          have hget2 : ((r :: rs).get ⟨j' + 1, by simpa using hj'⟩) = rs.get ⟨j', hj'⟩ := rfl
          rw [hget2] at hp
          rw [hp.2]
          have : ¬(i + (j' + 1) = i) := by omega
          simp [this]
    · have hle' : i0 + 1 ≤ i := by omega
      have hlt' : i < (i0 + 1) + rs.length := by
        simp at hlt; omega
      have hprop' : ∀ j (hj : j < rs.length),
          (rs.get ⟨j, hj⟩).idxAttr = (i0 + 1) + j ∧ (rs.get ⟨j, hj⟩).active = false := by
        intro j hj
        have hp := hprop (j + 1) (by simpa using hj)
        have hget : ((r :: rs).get ⟨j + 1, by simpa using hj⟩) = rs.get ⟨j, hj⟩ := rfl
        rw [hget] at hp
        exact ⟨by rw [hp.1]; omega, hp.2⟩
      obtain ⟨rest, hrest, hlen, hpat⟩ := setActiveAt_pattern rs (i0 + 1) i hprop' hle' hlt'
      refine ⟨r :: rest, ?_, by simp [hlen], ?_⟩
      · unfold setActiveAt
        rw [if_neg (by rw [hr0]; omega)]
        rw [hrest]
        rfl
      · intro j hj
        cases j with
        | zero =>
          have hact : ((r :: rest).get ⟨0, hj⟩).active = false := (hprop 0 (by simp)).2
          have hdec : (decide (i0 + 0 = i)) = false := by simp; omega
          rw [hact, hdec]
        | succ j' =>
          have hj' : j' < rest.length := by simpa using hj
          have hget : ((r :: rest).get ⟨j' + 1, hj⟩) = rest.get ⟨j', hj'⟩ := rfl
          rw [hget, hpat j' hj', show (i0 + 1) + j' = i0 + (j' + 1) from by omega]



lemma showNews_ok (st : AppState) (stock : JSVal) (ha : accessible stock = true)
    (hn : newsField stock = true) :
    ∃ st2, showNews st stock = Except.ok st2 ∧
      st2.screenerRows = st.screenerRows ∧ st2.requests = st.requests := by
  unfold newsField at hn
  cases hg : getField stock "news" with
  | error e => rw [hg] at hn; simp at hn
  | ok news =>
    rw [hg] at hn
    have hn' : (if truthy news = false then true else newsArrayOK news) = true := hn
    unfold showNews
    simp only [hg, bindE]
    by_cases h1 : truthy news = false
    · rw [if_pos h1]
      exact ⟨_, rfl, rfl, rfl⟩
    · rw [if_neg h1]
      rw [if_neg h1] at hn'
      cases news with
      | arr arts =>
        simp only [getLength, bindE]
        by_cases h2 : jsEqZero (JSVal.num arts.length) = true
        · rw [if_pos h2]
          exact ⟨_, rfl, rfl, rfl⟩
        · rw [if_neg h2]
          obtain ⟨tk, htk⟩ := accessible_getField stock "ticker" ha
          simp only [htk, bindE]
          have hall : ∀ x ∈ arts, accessible x = true := by
            simpa [newsArrayOK, List.all_eq_true] using hn'
          have hnothrow := buildList_noThrow (W := accessible)
            (fun i x hx => mkNewsItem_ok i x hx) arts 0 [] hall
          simp only [hnothrow]
          simp only [Bool.false_eq_true, if_false]
          exact ⟨_, rfl, rfl, rfl⟩
      | undef => simp [truthy] at h1
      | null => simp [truthy] at h1
      | bool b => simp [newsArrayOK] at hn'
      | num q => simp [newsArrayOK] at hn'
      | str t => simp [newsArrayOK] at hn'
      | obj fs => simp [newsArrayOK] at hn'



lemma loadBacktestStart_fields (st : AppState) (t : JSVal) (strat : String) :
    (loadBacktestStart st t strat).screenerRows = st.screenerRows ∧
    (loadBacktestStart st t strat).reversionRows = st.reversionRows ∧
    (loadBacktestStart st t strat).newsPanelHidden = st.newsPanelHidden ∧
    (loadBacktestStart st t strat).requests
      = st.requests ++ ["/api/backtest/" ++ jsToString t ++ "?strategy=" ++ strat] := by
  by_cases hc : st.chartInit = false <;>
    simp [loadBacktestStart, initChart, pushReq, hc]

lemma renderTradeLog_perfCards (st : AppState) (tr : JSVal) :
    (resultState (renderTradeLog st tr)).perfCards = st.perfCards := by
  unfold renderTradeLog
  by_cases h1 : truthy tr = false
  · rw [if_pos h1]; rfl
  · rw [if_neg h1]
    cases hl : getLength tr with
    | error e => simp [bindE, resultState]
    | ok len =>
      simp only [bindE]
      by_cases h2 : jsEqZero len = true
      · rw [if_pos h2]; rfl
      · rw [if_neg h2]
        cases tr with
        | arr ts =>
          cases hbt : (buildList mkTradeRow 0 ts []).2 <;> simp [hbt, resultState]
        | undef => simp [getLength] at hl
        | null => simp [getLength] at hl
        | bool b => simp [resultState]
        | num q => simp [resultState]
        | str t => simp [resultState]
        | obj fs => simp [resultState]



lemma renderPerfMetrics_six (st : AppState) (m : JSVal)
    (pnl wr pf avg ahd : ℚ) (ctv ttv : JSVal)
    (hpnl : getField m "total_pnl" = Except.ok (JSVal.num pnl))
    (hwr : getField m "win_rate" = Except.ok (JSVal.num wr))
    (hpf : getField m "profit_factor" = Except.ok (JSVal.num pf))
    (hct : getField m "closed_trades" = Except.ok ctv)
    (htt : getField m "total_trades" = Except.ok ttv)
    (havg : getField m "avg_return_pct" = Except.ok (JSVal.num avg))
    (hahd : getField m "avg_hold_days" = Except.ok (JSVal.num ahd)) :
    renderPerfMetrics st m = Except.ok { st with perfCards := [
      { label := "Total PnL", value := "$" ++ toFixedQ pnl 2,
        color := if jsGE0 (JSVal.num pnl) then "var(--green)" else "var(--red)" },
      { label := "Win Rate", value := toFixedQ wr 1 ++ "%", color := "" },
      { label := "Profit Factor", value := toFixedQ pf 2, color := "" },
      { label := "Trades", value := jsToString ctv ++ " / " ++ jsToString ttv, color := "" },
      { label := "Avg Return", value := toFixedQ avg 2 ++ "%",
        color := if jsGE0 (JSVal.num avg) then "var(--green)" else "var(--red)" },
      { label := "Avg Hold", value := toFixedQ ahd 1 ++ "d", color := "" } ] } := by
  unfold renderPerfMetrics
  simp only [hpnl, hwr, hpf, hct, htt, havg, hahd, bindE, callToFixed]

lemma renderPerfMetrics_ok (st : AppState) (m : JSVal)
    (pnl wr pf avg ahd : ℚ) (ctv ttv : JSVal)
    (hpnl : getField m "total_pnl" = Except.ok (JSVal.num pnl))
    (hwr : getField m "win_rate" = Except.ok (JSVal.num wr))
    (hpf : getField m "profit_factor" = Except.ok (JSVal.num pf))
    (hct : getField m "closed_trades" = Except.ok ctv)
    (htt : getField m "total_trades" = Except.ok ttv)
    (havg : getField m "avg_return_pct" = Except.ok (JSVal.num avg))
    (hahd : getField m "avg_hold_days" = Except.ok (JSVal.num ahd)) :
    ∃ cards, renderPerfMetrics st m = Except.ok { st with perfCards := cards } ∧
      cards.length = 6 :=
  ⟨_, renderPerfMetrics_six st m pnl wr pf avg ahd ctv ttv
    hpnl hwr hpf hct htt havg hahd, rfl⟩

lemma WFMomStock_accessible {s : JSVal} (h : WFMomStock s = true) : accessible s = true := by
  unfold WFMomStock at h
  simp only [Bool.and_eq_true] at h
  exact h.1.1.1.1.1

lemma WFMomStock_news {s : JSVal} (h : WFMomStock s = true) : newsField s = true := by
  unfold WFMomStock at h
  simp only [Bool.and_eq_true] at h
  exact h.2

lemma active_map_pattern (rs : List Row) (i : Nat)
    (hpat : ∀ j (hj : j < rs.length), (rs.get ⟨j, hj⟩).active = decide (j = i)) :
    rs.map (fun r => r.active) = (List.range rs.length).map (fun j => decide (j = i)) := by
  apply List.ext_get
  · simp
  · intro j h1 h2
    simp only [List.get_map, List.get_range]
    exact hpat j (by simpa using h1)

lemma onMomentumClick_spec (st1 : AppState) (xs : List JSVal) (i : Nat) (tkM : String)
    (hg : getField st1.screenerData "signals" = Except.ok (JSVal.arr xs))
    (hwf : ∀ x ∈ xs, WFMomStock x = true)
    (hi : i < xs.length)
    (htk : getField (xs.get ⟨i, hi⟩) "ticker" = Except.ok (JSVal.str tkM))
    (hrows : st1.screenerRows.length = xs.length)
    (hidx : ∀ j (hj : j < st1.screenerRows.length),
      (st1.screenerRows.get ⟨j, hj⟩).idxAttr = j) :
    ∃ st2, onMomentumClick st1 i = Except.ok st2 ∧
      st2.screenerRows.length = xs.length ∧
      st2.screenerRows.map (fun r => r.active)
        = (List.range xs.length).map (fun j => decide (j = i)) ∧
      st2.requests = st1.requests ++ ["/api/backtest/" ++ tkM ++ "?strategy=momentum"] := by
  have hstockWF := hwf (xs.get ⟨i, hi⟩) (List.get_mem xs i hi)
  have hgetD : xs.getD i JSVal.undef = xs.get ⟨i, hi⟩ := by
    rw [List.getD_eq_getElem?_getD, List.getElem?_eq_getElem hi]
    rfl
  have hclr : ∀ j (hj : j < (clearActive st1.screenerRows).length),
      ((clearActive st1.screenerRows).get ⟨j, hj⟩).idxAttr = 0 + j ∧
      ((clearActive st1.screenerRows).get ⟨j, hj⟩).active = false := by
    intro j hj
    have hj' : j < st1.screenerRows.length := by simpa [clearActive] using hj
    unfold clearActive
    constructor
    · rw [List.get_map]
      simpa using hidx j hj'
    · rw [List.get_map]
  have hlenclr : (clearActive st1.screenerRows).length = st1.screenerRows.length := by
    simp [clearActive]
  obtain ⟨rows2, hset, hlen2, hpat⟩ := setActiveAt_pattern (clearActive st1.screenerRows) 0 i
    hclr (Nat.zero_le i) (by omega)
  obtain ⟨st3, hshow, hrows3, hreq3⟩ := showNews_ok
    { st1 with screenerRows := rows2 } (xs.get ⟨i, hi⟩)
    (WFMomStock_accessible hstockWF) (WFMomStock_news hstockWF)
  refine ⟨loadBacktestStart st3 (JSVal.str tkM) "momentum", ?_, ?_, ?_, ?_⟩
  · unfold onMomentumClick
    simp only [hg, bindE, getIndex, hgetD, hset, htk, hshow]
  · have hsr : (loadBacktestStart st3 (JSVal.str tkM) "momentum").screenerRows = rows2 := by
      rw [(loadBacktestStart_fields st3 (JSVal.str tkM) "momentum").1, hrows3]
    rw [hsr]
    omega
  · have hsr : (loadBacktestStart st3 (JSVal.str tkM) "momentum").screenerRows = rows2 := by
      rw [(loadBacktestStart_fields st3 (JSVal.str tkM) "momentum").1, hrows3]
    rw [hsr]
    have hpat2 : ∀ j (hj : j < rows2.length), (rows2.get ⟨j, hj⟩).active = decide (j = i) := by
      intro j hj
      simpa using hpat j hj
    rw [active_map_pattern rows2 i hpat2, hlen2, hlenclr, hrows]
  · rw [(loadBacktestStart_fields st3 (JSVal.str tkM) "momentum").2.2.2, hreq3]
    simp only [jsToString, jsToStringFuel]
    rw [String.append_assoc]
    rfl

lemma onReversionClick_spec (st1 : AppState) (ys : List JSVal) (k : Nat) (tkR : String)
    (hg : getField st1.reversionData "signals" = Except.ok (JSVal.arr ys))
    (hk : k < ys.length)
    (htk : getField (ys.get ⟨k, hk⟩) "ticker" = Except.ok (JSVal.str tkR))
    (hrows : st1.reversionRows.length = ys.length)
    (hidx : ∀ j (hj : j < st1.reversionRows.length),
      (st1.reversionRows.get ⟨j, hj⟩).idxAttr = j) :
    ∃ st2, onReversionClick st1 k = Except.ok st2 ∧
      st2.newsPanelHidden = true ∧
      st2.requests = st1.requests ++ ["/api/backtest/" ++ tkR ++ "?strategy=reversion"] := by
  have hgetD : ys.getD k JSVal.undef = ys.get ⟨k, hk⟩ := by
    rw [List.getD_eq_getElem?_getD, List.getElem?_eq_getElem hk]
    rfl
  have hclr : ∀ j (hj : j < (clearActive st1.reversionRows).length),
      ((clearActive st1.reversionRows).get ⟨j, hj⟩).idxAttr = 0 + j ∧
      ((clearActive st1.reversionRows).get ⟨j, hj⟩).active = false := by
    intro j hj
    have hj' : j < st1.reversionRows.length := by simpa [clearActive] using hj
    unfold clearActive
    constructor
    · rw [List.get_map]
      simpa using hidx j hj'
    · rw [List.get_map]
  have hlenclr : (clearActive st1.reversionRows).length = st1.reversionRows.length := by
    simp [clearActive]
  obtain ⟨rows2, hset, hlen2, hpat⟩ := setActiveAt_pattern (clearActive st1.reversionRows) 0 k
    hclr (Nat.zero_le k) (by omega)
  refine ⟨loadBacktestStart
      { st1 with reversionRows := rows2, newsPanelHidden := true }
      (JSVal.str tkR) "reversion", ?_, ?_, ?_⟩
  · unfold onReversionClick
    simp only [hg, bindE, getIndex, hgetD, hset, htk]
  · rw [(loadBacktestStart_fields _ (JSVal.str tkR) "reversion").2.2.1]
  · rw [(loadBacktestStart_fields _ (JSVal.str tkR) "reversion").2.2.2]
    simp only [jsToString, jsToStringFuel]
    rw [String.append_assoc]
    rfl

/- Claim theorems, counterexamples and witnesses. -/

/-- C5: `switchView('performance')` issues exactly one request to
`/api/paper/metrics` and exactly one to `/api/paper/trades?status=all`
(the two appended URLs), and when both respond successfully with a
data-model-conforming metrics body, the performance metrics grid is
rendered with exactly 6 metric cards. -/
theorem C5_performanceView (st : AppState) (metrics tradesBody : JSVal)
    (pnl wr pf avg ahd : ℚ) (ctv ttv : JSVal)
    (hpnl : getField metrics "total_pnl" = Except.ok (JSVal.num pnl))
    (hwr : getField metrics "win_rate" = Except.ok (JSVal.num wr))
    (hpf : getField metrics "profit_factor" = Except.ok (JSVal.num pf))
    (hct : getField metrics "closed_trades" = Except.ok ctv)
    (htt : getField metrics "total_trades" = Except.ok ttv)
    (havg : getField metrics "avg_return_pct" = Except.ok (JSVal.num avg))
    (hahd : getField metrics "avg_hold_days" = Except.ok (JSVal.num ahd)) :
    switchView st "performance" = Except.ok (performanceViewState st) ∧
    (performanceViewState st).requests
      = st.requests ++ ["/api/paper/metrics", "/api/paper/trades?status=all"] ∧
    (fetchPerformanceDataComplete (performanceViewState st)
        (FetchOutcome.response true (some metrics))
        (FetchOutcome.response true (some tradesBody))).perfCards.length = 6 := by
  refine ⟨rfl, by simp [performanceViewState, fetchPerformanceDataStart, pushReq, viewBase], ?_⟩
  obtain ⟨cards, hrpm, hlen⟩ := renderPerfMetrics_ok (performanceViewState st) metrics
    pnl wr pf avg ahd ctv ttv hpnl hwr hpf hct htt havg hahd
  simp only [fetchPerformanceDataComplete, fetchPerformanceDataTry]
  rw [hrpm]
  cases hgt : getField tradesBody "trades" with
  | error e => simp [bindE, logErr, hlen]
  | ok tr =>
    simp only [bindE]
    have hcards := renderTradeLog_perfCards
      { performanceViewState st with perfCards := cards } tr
    cases hrt : renderTradeLog { performanceViewState st with perfCards := cards } tr with
    | ok st9 =>
      rw [hrt] at hcards
      simp only [resultState] at hcards
      simp [hcards, hlen]
    | error st9 =>
      rw [hrt] at hcards
      simp only [resultState] at hcards
      simp [logErr, hcards, hlen]



/-- C10 (amended): `formatFlow` returns `--` whenever the sentiment is
falsy-or-Neutral with a null/undefined put/call ratio, and whenever the
sentiment is truthy and none of Neutral/Bullish/Bearish; when the
sentiment is not Bullish and not Bearish the result is `--` or a
neutral-flow span, never a bullish or bearish marker.  (The original
claim fails for falsy-but-present sentiments such as the empty string
with a numeric ratio, which render the neutral span.) -/
theorem C10_amended (stock s pcr : JSVal)
    (hs : getField stock "options_sentiment" = Except.ok s)
    (hp : getField stock "put_call_ratio" = Except.ok pcr) :
    ((truthy s = false ∨ s = JSVal.str "Neutral") →
      (pcr = JSVal.null ∨ pcr = JSVal.undef) → formatFlow stock = Except.ok "--") ∧
    (truthy s = true → jsStrEq s "Neutral" = false → jsStrEq s "Bullish" = false →
      jsStrEq s "Bearish" = false → formatFlow stock = Except.ok "--") ∧
    (jsStrEq s "Bullish" = false → jsStrEq s "Bearish" = false →
      ∀ r, formatFlow stock = Except.ok r → r = "--" ∨ ∃ l, r = neutralSpan l) := by
  unfold formatFlow
  rw [hs, hp]
  dsimp only
  refine ⟨?_, ?_, ?_⟩
  · intro h1 h2
    have hcond : (!truthy s || jsStrEq s "Neutral") = true := by
      rcases h1 with h | rfl
      · simp [h]
      · simp [jsStrEq]
    rw [if_pos hcond]
    rcases h2 with rfl | rfl <;> simp [jsNotNull]
  · intro ht hn hb hbe
    have hcond : (!truthy s || jsStrEq s "Neutral") = false := by simp [ht, hn]
    rw [if_neg (by rw [hcond]; simp)]
    rw [if_neg (by rw [hb]; simp)]
    rw [if_neg (by rw [hbe]; simp)]
  · intro hb hbe r hr
    by_cases hcond : (!truthy s || jsStrEq s "Neutral") = true
    · rw [if_pos hcond] at hr
      by_cases hnn : jsNotNull pcr = true
      · rw [if_pos hnn] at hr
        cases hcf : callToFixed pcr 2 with
        | error e => rw [hcf] at hr; cases hr
        | ok d =>
          rw [hcf] at hr
          right
          exact ⟨d, (Except.ok.injEq _ _ ▸ hr).symm⟩
      · rw [if_neg hnn] at hr
        left
        cases hr
        rfl
    · rw [if_neg hcond] at hr
      rw [if_neg (by rw [hb]; simp)] at hr
      rw [if_neg (by rw [hbe]; simp)] at hr
      left
      cases hr
      rfl

/-- C8 (amended): provided the cached screener and reversion bodies
conform to the documented data model (or are still falsy), `switchView`
never raises an uncaught exception for any of the three views; fetch and
parse failures are caught inside the fetchers.  (The original claim
fails: a malformed but successfully parsed body cached while another
view is active makes a later view switch throw — see the
counterexample.) -/
theorem C8_amended (st : AppState) (view : String)
    (hv : view = "momentum" ∨ view = "reversion" ∨ view = "performance")
    (hm : WFScreenerCache st.screenerData = true)
    (hr : WFReversionCache st.reversionData = true) :
    jsThrows (switchView st view) = false := by
  rcases hv with rfl | rfl | rfl
  · have hstep : switchView st "momentum"
        = renderMomentumSignals (momentumViewPre st) := rfl
    rw [hstep]
    by_cases hce : cacheNonEmpty st.screenerData = true
    · obtain ⟨ht, xs, hg, hne⟩ := cacheNonEmpty_spec _ hce
      obtain ⟨rows, hrw, _, _⟩ := renderMomentum_nonempty (momentumViewPre st) xs hg
        (WFCache_signals hm ht hg) hne
      rw [hrw]
      rfl
    · have hce' : cacheNonEmpty st.screenerData = false := by
        revert hce; cases cacheNonEmpty st.screenerData <;> simp
      rw [renderMomentum_empty (momentumViewPre st) hm hce']
      rfl
  · have hstep : switchView st "reversion"
        = renderReversionSignals (reversionViewPre st) := rfl
    rw [hstep]
    by_cases hce : cacheNonEmpty st.reversionData = true
    · obtain ⟨ht, xs, hg, hne⟩ := cacheNonEmpty_spec _ hce
      obtain ⟨rows, hrw, _, _⟩ := renderReversion_nonempty (reversionViewPre st) xs hg
        (WFCache_signals hr ht hg) hne
      rw [hrw]
      rfl
    · have hce' : cacheNonEmpty st.reversionData = false := by
        revert hce; cases cacheNonEmpty st.reversionData <;> simp
      rw [renderReversion_empty (reversionViewPre st) hr hce']
      rfl
  · rfl



/-- C1: after `switchView(view)` returns, for each of the three views,
the matching button is the only active one, and exactly the matching
content is visible: the performance panel for `performance`, and for
`momentum`/`reversion` the matching table when the corresponding cache
is non-null with non-empty signals, the empty-state element otherwise;
all non-matching panels are hidden. -/
theorem C1_switchView (st : AppState) (view : String)
    (hv : view = "momentum" ∨ view = "reversion" ∨ view = "performance")
    (hm : WFScreenerCache st.screenerData = true)
    (hr : WFReversionCache st.reversionData = true) :
    jsThrows (switchView st view) = false ∧
    (resultState (switchView st view)).btnMomentumActive = decide (view = "momentum") ∧
    (resultState (switchView st view)).btnReversionActive = decide (view = "reversion") ∧
    (resultState (switchView st view)).btnPerformanceActive = decide (view = "performance") ∧
    (view = "momentum" →
      (resultState (switchView st view)).screenerTableHidden
          = !cacheNonEmpty st.screenerData ∧
      (resultState (switchView st view)).screenerEmptyHidden
          = cacheNonEmpty st.screenerData ∧
      (resultState (switchView st view)).reversionTableHidden = true ∧
      (resultState (switchView st view)).perfPanelHidden = true ∧
      (resultState (switchView st view)).newsPanelHidden = true) ∧
    (view = "reversion" →
      (resultState (switchView st view)).reversionTableHidden
          = !cacheNonEmpty st.reversionData ∧
      (resultState (switchView st view)).screenerEmptyHidden
          = cacheNonEmpty st.reversionData ∧
      (resultState (switchView st view)).screenerTableHidden = true ∧
      (resultState (switchView st view)).perfPanelHidden = true ∧
      (resultState (switchView st view)).newsPanelHidden = true) ∧
    (view = "performance" →
      (resultState (switchView st view)).perfPanelHidden = false ∧
      (resultState (switchView st view)).screenerTableHidden = true ∧
      (resultState (switchView st view)).reversionTableHidden = true ∧
      (resultState (switchView st view)).newsPanelHidden = true ∧
      (resultState (switchView st view)).screenerEmptyHidden = true) := by
  rcases hv with rfl | rfl | rfl
  · have hstep : switchView st "momentum"
        = renderMomentumSignals (momentumViewPre st) := rfl
    rw [hstep]
    by_cases hce : cacheNonEmpty st.screenerData = true
    · obtain ⟨ht, xs, hg, hne⟩ := cacheNonEmpty_spec _ hce
      obtain ⟨rows, hrw, _, _⟩ := renderMomentum_nonempty (momentumViewPre st) xs hg
        (WFCache_signals hm ht hg) hne
      rw [hrw]
      simp [resultState, jsThrows, momentumViewPre, viewBase, hce]
    · have hce' : cacheNonEmpty st.screenerData = false := by
        revert hce; cases cacheNonEmpty st.screenerData <;> simp
      rw [renderMomentum_empty (momentumViewPre st) hm hce']
      simp [resultState, jsThrows, momentumViewPre, viewBase, hce']
  · have hstep : switchView st "reversion"
        = renderReversionSignals (reversionViewPre st) := rfl
    rw [hstep]
    by_cases hce : cacheNonEmpty st.reversionData = true
    · obtain ⟨ht, xs, hg, hne⟩ := cacheNonEmpty_spec _ hce
      obtain ⟨rows, hrw, _, _⟩ := renderReversion_nonempty (reversionViewPre st) xs hg
        (WFCache_signals hr ht hg) hne
      rw [hrw]
      simp [resultState, jsThrows, reversionViewPre, viewBase, hce]
    · have hce' : cacheNonEmpty st.reversionData = false := by
        revert hce; cases cacheNonEmpty st.reversionData <;> simp
      rw [renderReversion_empty (reversionViewPre st) hr hce']
      simp [resultState, jsThrows, reversionViewPre, viewBase, hce']
  · simp [switchView, resultState, jsThrows, performanceViewState,
      fetchPerformanceDataStart, pushReq, viewBase]



/-- C7: clicking rendered momentum row `i` makes it the only row with
the `active` class and issues `/api/backtest/{ticker_i}?strategy=momentum`;
clicking rendered reversion row `k` hides the news panel and issues
`/api/backtest/{ticker_k}?strategy=reversion`. -/
theorem C7_rowClicks (st st' : AppState) (xs ys : List JSVal) (i k : Nat)
    (tkM tkR : String)
    (hgM : getField st.screenerData "signals" = Except.ok (JSVal.arr xs))
    (hwfM : ∀ x ∈ xs, WFMomStock x = true)
    (hi : i < xs.length)
    (htkM : getField (xs.get ⟨i, hi⟩) "ticker" = Except.ok (JSVal.str tkM))
    (hgR : getField st'.reversionData "signals" = Except.ok (JSVal.arr ys))
    (hwfR : ∀ y ∈ ys, WFRevStock y = true)
    (hk : k < ys.length)
    (htkR : getField (ys.get ⟨k, hk⟩) "ticker" = Except.ok (JSVal.str tkR)) :
    (∃ st1 st2, renderMomentumSignals st = Except.ok st1 ∧
      onMomentumClick st1 i = Except.ok st2 ∧
      st2.screenerRows.length = xs.length ∧
      st2.screenerRows.map (fun r => r.active)
        = (List.range xs.length).map (fun j => decide (j = i)) ∧
      st2.requests = st1.requests ++ ["/api/backtest/" ++ tkM ++ "?strategy=momentum"]) ∧
    (∃ st3 st4, renderReversionSignals st' = Except.ok st3 ∧
      onReversionClick st3 k = Except.ok st4 ∧
      st4.newsPanelHidden = true ∧
      st4.requests = st3.requests ++ ["/api/backtest/" ++ tkR ++ "?strategy=reversion"]) := by
  constructor
  · have hne : xs ≠ [] := by
      intro hnil; rw [hnil] at hi; simp at hi
    obtain ⟨rows, hrender, hlen, hprop⟩ := renderMomentum_nonempty st xs hgM hwfM hne
    obtain ⟨st2, hclick, hl2, hact, hreq⟩ := onMomentumClick_spec
      { st with
        screenerEmptyHidden := true,
        screenerTableHidden := false,
        screenerRows := rows }
      xs i tkM hgM hwfM hi htkM (by simpa using hlen)
      (by intro j hj; exact (hprop j (by simpa using hj)).1)
    exact ⟨_, st2, hrender, hclick, hl2, hact, hreq⟩
  · have hne : ys ≠ [] := by
      intro hnil; rw [hnil] at hk; simp at hk
    obtain ⟨rows, hrender, hlen, hprop⟩ := renderReversion_nonempty st' ys hgR hwfR hne
    obtain ⟨st4, hclick, hnews, hreq⟩ := onReversionClick_spec
      { st' with
        screenerEmptyHidden := true,
        reversionTableHidden := false,
        reversionRows := rows }
      ys k tkR hgR hk htkR (by simpa using hlen)
      (by intro j hj; exact (hprop j (by simpa using hj)).1)
    exact ⟨_, st4, hrender, hclick, hnews, hreq⟩


/-- C9: every `loadBacktest` call that settles — success with any body,
non-2xx response, or a thrown fetch/parse/render error — leaves the
loading overlay with the `hidden` class. -/
theorem C9_overlayHidden (st : AppState) (ticker : JSVal) (strategy : String)
    (outcome : FetchOutcome) :
    (loadBacktest st ticker strategy outcome).loadingOverlayHidden = true := by
  unfold loadBacktest loadBacktestSettle
  cases h : loadBacktestTry (loadBacktestStart st ticker strategy) ticker outcome <;> rfl

/-- C4: when the screener fetch or its JSON parse throws, the error is
caught and logged, and the whole call changes nothing except issuing the
request and appending the log line — cache, rows and all display state
are untouched. -/
theorem C4_fetchFailure (st : AppState) (outcome : FetchOutcome)
    (h : fetchFailed outcome = true) :
    fetchScreenerData st outcome =
      { st with requests := st.requests ++ ["/api/screener/today"],
                logs := st.logs ++ ["Error fetching screener data:"] } := by
  cases outcome with
  | netError => rfl
  | response ok body =>
    cases body with
    | none => rfl
    | some d => simp [fetchFailed] at h

/-- C4 witness: a network error leaves the initial state unchanged apart
from the issued request and the log line. -/
theorem C4_fetchFailure_witness :
    fetchFailed FetchOutcome.netError = true ∧
    fetchScreenerData initialState FetchOutcome.netError =
      { initialState with
        requests := initialState.requests ++ ["/api/screener/today"],
        logs := initialState.logs ++ ["Error fetching screener data:"] } :=
  ⟨rfl, C4_fetchFailure initialState FetchOutcome.netError rfl⟩

/-- C2: on a non-2xx backtest response whose body is an object with a
string `detail`, the ticker label becomes `ticker — detail`, the loading
overlay is hidden, and the five metric fields and the equity-curve data
are unchanged. -/
theorem C2_detailShown (st : AppState) (tk detail strategy : String) (err : JSVal)
    (hdet : getField err "detail" = Except.ok (JSVal.str detail)) :
    let res := loadBacktest st (JSVal.str tk) strategy
      (FetchOutcome.response false (some err))
    res.activeTickerText = tk ++ " — " ++ detail ∧
      res.loadingOverlayHidden = true ∧
      res.winRateText = st.winRateText ∧
      res.profitFactorText = st.profitFactorText ∧
      res.maxDrawdownText = st.maxDrawdownText ∧
      res.totalTradesText = st.totalTradesText ∧
      res.totalReturnText = st.totalReturnText ∧
      res.equityData = st.equityData := by
  by_cases hc : st.chartInit = false <;>
    simp [loadBacktest, loadBacktestSettle, loadBacktestTry, hdet, bindE,
      loadBacktestStart, initChart, pushReq, logErr, hc, jsToString, jsToStringFuel]

/-- C2 witness: a 404-style body with detail `No data` for ticker TSLA. -/
theorem C2_detailShown_witness :
    getField (JSVal.obj [("detail", JSVal.str "No data")]) "detail"
        = Except.ok (JSVal.str "No data") ∧
    (loadBacktest initialState (JSVal.str "TSLA") "momentum"
        (FetchOutcome.response false
          (some (JSVal.obj [("detail", JSVal.str "No data")])))).activeTickerText
      = "TSLA — No data" :=
  ⟨rfl, (C2_detailShown initialState "TSLA" "No data" "momentum"
    (JSVal.obj [("detail", JSVal.str "No data")]) rfl).1⟩

/-- C3 counterexample: two successful backtests whose total returns have
opposite signs leave the equity-curve series with the same color (the
fixed `#2962FF` set at chart creation); only the total-return metric
element changes color.  This refutes the claim that the curve color
reflects the sign of `total_return_pct`. -/
theorem C3_counterexample :
    (loadBacktest initialState (JSVal.str "AAPL") "momentum"
        (FetchOutcome.response true (some sampleBacktestNeg))).equityColor
      = (loadBacktest initialState (JSVal.str "AAPL") "momentum"
        (FetchOutcome.response true (some sampleBacktestPos))).equityColor
    ∧ negFivePointTwo < 0 ∧ (0 : ℚ) ≤ 5
    ∧ (loadBacktest initialState (JSVal.str "AAPL") "momentum"
        (FetchOutcome.response true (some sampleBacktestNeg))).totalReturnColor = "#f85149"
    ∧ (loadBacktest initialState (JSVal.str "AAPL") "momentum"
        (FetchOutcome.response true (some sampleBacktestPos))).totalReturnColor = "#3fb950" :=
  ⟨rfl, by decide, by decide, rfl, rfl⟩

/-- C3 (amended): for every successful backtest response, the color of
the total-return metric element reflects the sign of `total_return_pct`
(`#3fb950` for non-negative, `#f85149` for negative), the equity-curve
series keeps the fixed color `#2962FF` set at chart creation, and the
curve data is replaced by `equity_curve`. -/
theorem C3_amended (st : AppState) (tk strategy : String) (data : JSVal)
    (w pf md tr : ℚ) (ttv ec : JSVal)
    (hw : getField data "win_rate" = Except.ok (JSVal.num w))
    (hpf : getField data "profit_factor" = Except.ok (JSVal.num pf))
    (hmd : getField data "max_drawdown_pct" = Except.ok (JSVal.num md))
    (htt : getField data "total_trades" = Except.ok ttv)
    (htr : getField data "total_return_pct" = Except.ok (JSVal.num tr))
    (hec : getField data "equity_curve" = Except.ok ec)
    (hch : st.chartInit = false) :
    let res := loadBacktest st (JSVal.str tk) strategy
      (FetchOutcome.response true (some data))
    res.equityColor = "#2962FF" ∧
      res.totalReturnColor = (if 0 ≤ tr then "#3fb950" else "#f85149") ∧
      res.equityData = ec := by
  simp [loadBacktest, loadBacktestSettle, loadBacktestTry, bindE,
    hw, hpf, hmd, htt, htr, hec, callToFixed,
    loadBacktestStart, initChart, pushReq, logErr, hch, jsGE0]

/-- C3 witness: the -5.2 total return renders the negative color while
the curve color stays `#2962FF`. -/
theorem C3_amended_witness :
    initialState.chartInit = false ∧
    (loadBacktest initialState (JSVal.str "AAPL") "momentum"
        (FetchOutcome.response true (some sampleBacktestNeg))).equityColor = "#2962FF" ∧
    (loadBacktest initialState (JSVal.str "AAPL") "momentum"
        (FetchOutcome.response true (some sampleBacktestNeg))).totalReturnColor
      = (if (0 : ℚ) ≤ negFivePointTwo then "#3fb950" else "#f85149") :=
  ⟨rfl,
    (C3_amended initialState "AAPL" "momentum" sampleBacktestNeg 55 2 9 negFivePointTwo
      (JSVal.num 12) (JSVal.arr []) rfl rfl rfl rfl rfl rfl rfl).1,
    (C3_amended initialState "AAPL" "momentum" sampleBacktestNeg 55 2 9 negFivePointTwo
      (JSVal.num 12) (JSVal.arr []) rfl rfl rfl rfl rfl rfl rfl).2.1⟩

/-- C6: a cached screener body with an empty `signals` array renders the
empty state and hides the table, in the momentum and reversion views. -/
theorem C6_emptySignals (st : AppState)
    (h1 : getField st.screenerData "signals" = Except.ok (JSVal.arr []))
    (h2 : getField st.reversionData "signals" = Except.ok (JSVal.arr [])) :
    renderMomentumSignals st = Except.ok
        { st with screenerTableHidden := true, screenerEmptyHidden := false } ∧
      renderReversionSignals st = Except.ok
        { st with reversionTableHidden := true, screenerEmptyHidden := false } := by
  constructor
  · have htr : truthy st.screenerData = true := by
      cases hsd : st.screenerData <;> rw [hsd] at h1 <;>
        simp [getField, truthy] at h1 ⊢
    unfold renderMomentumSignals
    rw [htr]
    simp [signalsLengthIsZero, h1, getLength, bindE, jsEqZero]
  · have htr : truthy st.reversionData = true := by
      cases hsd : st.reversionData <;> rw [hsd] at h2 <;>
        simp [getField, truthy] at h2 ⊢
    unfold renderReversionSignals
    rw [htr]
    simp [signalsLengthIsZero, h2, getLength, bindE, jsEqZero]

/-- C6 witness: caches holding a body with `signals := []`. -/
theorem C6_emptySignals_witness :
    getField emptySignalsState.screenerData "signals" = Except.ok (JSVal.arr []) ∧
    renderMomentumSignals emptySignalsState = Except.ok
      { emptySignalsState with screenerTableHidden := true, screenerEmptyHidden := false } :=
  ⟨rfl, (C6_emptySignals emptySignalsState rfl rfl).1⟩

/-- C8 counterexample: `/api/screener/today` answers with the valid JSON
body containing no fields while the reversion view is active; the body is
cached, and the next `switchView('momentum')` throws an uncaught
TypeError (reading `length` of `undefined` in `renderMomentumSignals`). -/
theorem C8_counterexample :
    jsThrows (switchView malformedCachedState "momentum") = true := by rfl

/-- C8 witness: on the initial page state (both caches `null`), switching
to the momentum view does not throw. -/
theorem C8_amended_witness :
    WFScreenerCache initialState.screenerData = true ∧
    jsThrows (switchView initialState "momentum") = false :=
  ⟨rfl, C8_amended initialState "momentum" (Or.inl rfl) rfl rfl⟩

/-- C10 counterexample: a present-but-falsy sentiment (the empty string)
with put/call ratio 1.5 renders the neutral-flow span, not `--`, even
though the empty string is a value other than Neutral/Bullish/Bearish. -/
theorem C10_counterexample :
    formatFlow emptySentimentStock = Except.ok "<span class=\"flow-neutral\">1.50</span>"
    ∧ jsStrEq (JSVal.str "") "Neutral" = false
    ∧ jsStrEq (JSVal.str "") "Bullish" = false
    ∧ jsStrEq (JSVal.str "") "Bearish" = false
    ∧ ("<span class=\"flow-neutral\">1.50</span>" = "--") = False :=
  ⟨rfl, rfl, rfl, rfl, by simp⟩

/-- C10 witness: a truthy unrecognised sentiment yields `--`. -/
theorem C10_amended_witness :
    getField weirdSentimentStock "options_sentiment" = Except.ok (JSVal.str "Weird") ∧
    formatFlow weirdSentimentStock = Except.ok "--" :=
  ⟨rfl, (C10_amended weirdSentimentStock (JSVal.str "Weird") JSVal.null rfl rfl).2.1
    rfl rfl rfl rfl⟩


/-- C1 witness: switching to the momentum view on a state with conforming
caches returns normally with the momentum button active. -/
theorem C1_switchView_witness :
    WFScreenerCache wfCachesState.screenerData = true ∧
    jsThrows (switchView wfCachesState "momentum") = false ∧
    (resultState (switchView wfCachesState "momentum")).btnMomentumActive
      = decide (("momentum" : String) = "momentum") :=
  ⟨by decide,
    (C1_switchView wfCachesState "momentum" (Or.inl rfl) (by decide) (by decide)).1,
    (C1_switchView wfCachesState "momentum" (Or.inl rfl) (by decide) (by decide)).2.1⟩

/-- C5 witness: a conforming metrics body and an empty trade list. -/
theorem C5_performanceView_witness :
    getField sampleMetrics "total_pnl" = Except.ok (JSVal.num 100) ∧
    (performanceViewState initialState).requests
      = initialState.requests ++ ["/api/paper/metrics", "/api/paper/trades?status=all"] ∧
    (fetchPerformanceDataComplete (performanceViewState initialState)
        (FetchOutcome.response true (some sampleMetrics))
        (FetchOutcome.response true (some sampleTradesBody))).perfCards.length = 6 :=
  ⟨rfl,
    (C5_performanceView initialState sampleMetrics sampleTradesBody 100 60 3 1 5
      (JSVal.num 4) (JSVal.num 7) rfl rfl rfl rfl rfl rfl rfl).2.1,
    (C5_performanceView initialState sampleMetrics sampleTradesBody 100 60 3 1 5
      (JSVal.num 4) (JSVal.num 7) rfl rfl rfl rfl rfl rfl rfl).2.2⟩

/-- C7 witness: clicking the second momentum row (MSFT) of the rendered
sample screener. -/
theorem C7_rowClicks_witness :
    (1 : Nat) < [sampleMomStock, sampleMomStock2].length ∧
    (∃ st1 st2, renderMomentumSignals wfCachesState = Except.ok st1 ∧
      onMomentumClick st1 1 = Except.ok st2 ∧
      st2.screenerRows.length = [sampleMomStock, sampleMomStock2].length ∧
      st2.screenerRows.map (fun r => r.active)
        = (List.range [sampleMomStock, sampleMomStock2].length).map (fun j => decide (j = 1)) ∧
      st2.requests = st1.requests ++ ["/api/backtest/MSFT?strategy=momentum"]) :=
  ⟨by decide,
    (C7_rowClicks wfCachesState wfCachesState [sampleMomStock, sampleMomStock2]
      [sampleRevStock] 1 0 "MSFT" "KO" rfl (by decide) (by decide) rfl rfl
      (by decide) (by decide) rfl).1⟩

end QS
